import Mathlib

set_option maxRecDepth 2048

/-!
# Verification of the fed-data OCR ingestion pipeline

Shallow embedding of `src/Mistral/ocr_pipeline_unzipped.py`: the year-inference
cascade, the idempotency-marker machinery, the retrying remote invoker, the
read-modify-write CSV ledger, the per-document task of `process_one`, and the
partition resolution of `main`.  Strings are treated as their character lists;
all keys in this repository are ASCII, so Python's Unicode-aware `\w` and
UTF-8 encoding coincide with the ASCII reading used here.
-/

namespace FedData

/-! ## Character helpers (ASCII reading of Python `re` character classes) -/

/-- Numeric value of a decimal digit character. -/
def digitVal (c : Char) : Nat := c.toNat - '0'.toNat

/-- The regex alternation `(19|20)` on the first two digit characters. -/
def isYearHead (a b : Char) : Bool := (a = '1' && b = '9') || (a = '2' && b = '0')

/-- A four-character year token matching `(19|20)\d{2}`. -/
def isYear4 (a b c d : Char) : Bool := isYearHead a b && c.isDigit && d.isDigit

/-- The separator class `[-_]`. -/
def isSepChar (c : Char) : Bool := c = '-' || c = '_'

/-- The month alternation `(0[1-9]|1[0-2])`. -/
def isMonthPair (a b : Char) : Bool :=
  (a = '0' && '1'.toNat ≤ b.toNat && b.toNat ≤ '9'.toNat) ||
  (a = '1' && '0'.toNat ≤ b.toNat && b.toNat ≤ '2'.toNat)

/-- The day alternation `(0[1-9]|[12]\d|3[01])`. -/
def isDayPair (a b : Char) : Bool :=
  (a = '0' && '1'.toNat ≤ b.toNat && b.toNat ≤ '9'.toNat) ||
  ((a = '1' || a = '2') && b.isDigit) ||
  (a = '3' && (b = '0' || b = '1'))

/-- Python's `\w` on ASCII input: letters, digits, underscore. -/
def isWordChar (c : Char) : Bool := c.isAlphanum || c = '_'

/-- Value of the four-digit year token. -/
def yearVal (a b c d : Char) : Nat :=
  ((digitVal a * 10 + digitVal b) * 10 + digitVal c) * 10 + digitVal d

/-! ## Tier matchers of `extract_year_from_filename`

Each Python regex is deterministic (every alternation is decided by its first
character and all branches have fixed length), so `re.finditer` semantics is:
scan left to right, attempt a match at each position, and on success resume
scanning right after the matched text. -/

/-- Match of `(19|20)\d{2}[-_](0[1-9]|1[0-2])[-_](0[1-9]|[12]\d|3[01])`
at the head of the list, returning the year value (match length 10). -/
def fullISOAt : List Char → Option Nat
  | a :: b :: c :: d :: s1 :: m1 :: m2 :: s2 :: e1 :: e2 :: _ =>
    if isYear4 a b c d && isSepChar s1 && isMonthPair m1 m2 &&
       isSepChar s2 && isDayPair e1 e2
    then some (yearVal a b c d) else none
  | _ => none

/-- Scanner for the full-ISO pattern, structurally recursive on a fuel
argument (each step consumes at least one character, so fuel = list length
suffices). -/
def findFullISOF : Nat → List Char → List Nat
  | 0, _ => []
  | _ + 1, [] => []
  | fuel + 1, a :: rest =>
    match fullISOAt (a :: rest) with
    | some y => y :: findFullISOF fuel (rest.drop 9)
    | none => findFullISOF fuel rest

/-- `re.finditer` of the full-ISO pattern: years of all (non-overlapping,
leftmost) matches, in order. -/
def findFullISO (l : List Char) : List Nat := findFullISOF l.length l

/-- Match of `(19|20)\d{2}[-_](0[1-9]|1[0-2])` at the head of the list
(match length 7). -/
def partialISOAt : List Char → Option Nat
  | a :: b :: c :: d :: s1 :: m1 :: m2 :: _ =>
    if isYear4 a b c d && isSepChar s1 && isMonthPair m1 m2
    then some (yearVal a b c d) else none
  | _ => none

/-- Fuel-based scanner for the partial-ISO pattern. -/
def findPartialISOF : Nat → List Char → List Nat
  | 0, _ => []
  | _ + 1, [] => []
  | fuel + 1, a :: rest =>
    match partialISOAt (a :: rest) with
    | some y => y :: findPartialISOF fuel (rest.drop 6)
    | none => findPartialISOF fuel rest

/-- `re.finditer` of the partial-ISO pattern. -/
def findPartialISO (l : List Char) : List Nat := findPartialISOF l.length l

/-- `\b` before the token: start of string, or previous character not a word
character (the token itself starts with a digit, which is a word character). -/
def boundaryBefore : Option Char → Bool
  | none => true
  | some p => !isWordChar p

/-- `\b` after the token: end of string, or next character not a word
character (lookahead only, nothing is consumed). -/
def boundaryAfter : List Char → Bool
  | [] => true
  | c :: _ => !isWordChar c

/-- `re.findall(r"\b((?:19|20)\d{2})\b", stem)` as year values: scan with the
previous character carried along for the left word-boundary test. -/
def findPlainYears (prev : Option Char) : List Char → List Nat
  | a :: b :: c :: d :: rest =>
    if isYear4 a b c d && boundaryBefore prev && boundaryAfter rest
    then yearVal a b c d :: findPlainYears (some d) rest
    else findPlainYears (some a) (b :: c :: d :: rest)
  | a :: rest => findPlainYears (some a) rest
  | [] => []

/-! ## `extract_year_from_filename` and `extract_folder_year_guess` -/

/-- `max(min(y, max_y), min_y)` with `min_y = 1900`. -/
def clampYear (y maxY : Nat) : Nat := max (min y maxY) 1900

/-- Python `max` over a nonempty collection, given as head and tail. -/
def maxOfList (y : Nat) (ys : List Nat) : Nat := ys.foldl max y

/-- `extract_year_from_filename(stem, folder_year_fallback)`.  The ambient
`time.gmtime().tm_year` is passed explicitly as `current_year`.  The source's
tier 3 runs `re.findall` twice (once without and once with the full year in
the capture group); both produce the same match set, embedded once here. -/
def extract_year_from_filename (stem : String) (folder_year_fallback : Option Nat)
    (current_year : Nat) : String :=
  let maxY := current_year + 1
  let cs := stem.data
  match findFullISO cs with
  | y :: ys => toString (clampYear (maxOfList y ys) maxY)
  | [] =>
    match findPartialISO cs with
    | y :: ys => toString (clampYear (maxOfList y ys) maxY)
    | [] =>
      match findPlainYears none cs with
      | y :: ys => toString (clampYear (maxOfList y ys) maxY)
      | [] =>
        match folder_year_fallback with
        | some fy => if 1900 ≤ fy && fy ≤ maxY then toString fy else "unknown"
        | none => "unknown"

/-! ## SHA-1 (for `marker_key_for_pdf`, which uses `hashlib.sha1`)

32-bit words are natural numbers reduced modulo `2^32` where overflow can
occur; bytes are natural numbers below 256. -/

/-- Left rotation of a 32-bit word `x < 2^32` by `s` bits. -/
def rotl32 (s x : Nat) : Nat := ((x <<< s) % 2 ^ 32) ||| (x >>> (32 - s))

/-- `n` bytes of `v` in big-endian order. -/
def beBytes : Nat → Nat → List Nat
  | 0, _ => []
  | n + 1, v => beBytes n (v / 256) ++ [v % 256]

/-- SHA-1 message padding: append `0x80`, zeros to 56 mod 64, then the
bit length as 8 big-endian bytes. -/
def padSHA1 (bytes : List Nat) : List Nat :=
  let L := bytes.length
  let k := (64 - (L + 9) % 64) % 64
  bytes ++ [0x80] ++ List.replicate k 0 ++ beBytes 8 (L * 8)

/-- Fuel-based splitter into 64-byte chunks (each step consumes at least one
byte, so fuel = list length suffices). -/
def chunks64F : Nat → List Nat → List (List Nat)
  | 0, _ => []
  | _ + 1, [] => []
  | fuel + 1, a :: rest => (a :: rest).take 64 :: chunks64F fuel ((a :: rest).drop 64)

/-- Split a byte list into 64-byte chunks. -/
def chunks64 (l : List Nat) : List (List Nat) := chunks64F l.length l

/-- Big-endian 32-bit word from four bytes. -/
def beWord (a b c d : Nat) : Nat := ((a * 256 + b) * 256 + c) * 256 + d

/-- Group a chunk's bytes into big-endian words. -/
def toWords : List Nat → List Nat
  | a :: b :: c :: d :: rest => beWord a b c d :: toWords rest
  | _ => []

/-- Append the next word of the SHA-1 message schedule:
`w[i] = rotl1 (w[i-3] xor w[i-8] xor w[i-14] xor w[i-16])`. -/
def step80 (ws : List Nat) : List Nat :=
  let n := ws.length
  ws ++ [rotl32 1 (ws.getD (n - 3) 0 ^^^ ws.getD (n - 8) 0 ^^^
                   ws.getD (n - 14) 0 ^^^ ws.getD (n - 16) 0)]

/-- Extend 16 words to the 80-word schedule. -/
def schedule (ws : List Nat) : List Nat := step80^[64] ws

/-- Round function and constant for round `i`. -/
def fK (i b c d : Nat) : Nat × Nat :=
  if i < 20 then ((b &&& c) ||| ((b ^^^ 0xFFFFFFFF) &&& d), 0x5A827999)
  else if i < 40 then (b ^^^ c ^^^ d, 0x6ED9EBA1)
  else if i < 60 then ((b &&& c) ||| (b &&& d) ||| (c &&& d), 0x8F1BBCDC)
  else (b ^^^ c ^^^ d, 0xCA62C1D6)

/-- One SHA-1 compression round on state `(a, b, c, d, e)` with indexed
schedule word `(i, w)`. -/
def sha1Round (st : Nat × Nat × Nat × Nat × Nat) (iw : Nat × Nat) :
    Nat × Nat × Nat × Nat × Nat :=
  let (a, b, c, d, e) := st
  let (f, k) := fK iw.1 b c d
  ((rotl32 5 a + f + e + k + iw.2) % 2 ^ 32, a, rotl32 30 b, c, d)

/-- Process one 64-byte chunk against the running hash state. -/
def processChunk (h : Nat × Nat × Nat × Nat × Nat) (chunk : List Nat) :
    Nat × Nat × Nat × Nat × Nat :=
  let (a, b, c, d, e) := (schedule (toWords chunk)).enum.foldl sha1Round h
  ((h.1 + a) % 2 ^ 32, (h.2.1 + b) % 2 ^ 32, (h.2.2.1 + c) % 2 ^ 32,
   (h.2.2.2.1 + d) % 2 ^ 32, (h.2.2.2.2 + e) % 2 ^ 32)

/-- Lowercase hex digit. -/
def hexDigit (n : Nat) : Char :=
  if n < 10 then Char.ofNat ('0'.toNat + n) else Char.ofNat ('a'.toNat + n - 10)

/-- Eight hex digits of a 32-bit word, most significant nibble first. -/
def hex32 (v : Nat) : List Char :=
  (List.range 8).map (fun i => hexDigit ((v >>> (28 - 4 * i)) &&& 15))

/-- UTF-8 encoding of one character as bytes. -/
def utf8Bytes (c : Char) : List Nat :=
  let n := c.toNat
  if n < 0x80 then [n]
  else if n < 0x800 then [0xC0 ||| (n >>> 6), 0x80 ||| (n &&& 0x3F)]
  else if n < 0x10000 then
    [0xE0 ||| (n >>> 12), 0x80 ||| ((n >>> 6) &&& 0x3F), 0x80 ||| (n &&& 0x3F)]
  else
    [0xF0 ||| (n >>> 18), 0x80 ||| ((n >>> 12) &&& 0x3F),
     0x80 ||| ((n >>> 6) &&& 0x3F), 0x80 ||| (n &&& 0x3F)]

/-- `hashlib.sha1(s.encode("utf-8")).hexdigest()`. -/
def sha1hex (s : String) : String :=
  let bytes := s.data.flatMap utf8Bytes
  let h := (chunks64 (padSHA1 bytes)).foldl processChunk
    (0x67452301, 0xEFCDAB89, 0x98BADCFE, 0x10325476, 0xC3D2E1F0)
  String.mk (hex32 h.1 ++ hex32 h.2.1 ++ hex32 h.2.2.1 ++ hex32 h.2.2.2.1 ++
             hex32 h.2.2.2.2)

/-- `INPUT_ROOT` from the source. -/
def INPUT_ROOT : String := "Unziped_Documents/"

/-- Python `.strip("/")` on a character list. -/
def stripSlashes (l : List Char) : List Char :=
  ((l.dropWhile (· == '/')).reverse.dropWhile (· == '/')).reverse

/-- `extract_folder_year_guess(dir_prefix)`: drop `len(INPUT_ROOT)` characters
(Python slicing `dir_prefix[len(INPUT_ROOT):]`), strip slashes, and apply the
anchored `re.match(r"(19|20)\d{2}", folder)`. -/
def extract_folder_year_guess (dirPfx : String) : Option Nat :=
  let folder := stripSlashes (dirPfx.data.drop INPUT_ROOT.length)
  match folder with
  | a :: b :: c :: d :: _ => if isYear4 a b c d then some (yearVal a b c d) else none
  | _ => none

/-! ## Pipeline configuration constants -/

def S3_BUCKET : String := "fed-data-storage"
def OUT_JSON_ROOT : String := "CapIQMistral_Updated/"
def OUT_CSV_ROOT : String := "ProcessedMistralUpdated/"
/-- The marker namespace (named with an `f`-string over `OUT_CSV_ROOT` in the
source; the source constant's name is avoided here). -/
def MARKER_DIR : String := OUT_CSV_ROOT ++ "processed_markers/"
def PROCESSED_CSV_KEY : String := OUT_CSV_ROOT ++ "processed_files_CapIQ.csv"
def FAILED_CSV_KEY : String := OUT_CSV_ROOT ++ "failed_files_CapIQ.csv"
def MAX_OCR_RETRIES : Nat := 3
def RETRY_BACKOFF : Nat := 5

/-! ## Name and key helpers -/

/-- Python `str.split(sep)` for a one-character separator (keeps empty
pieces, as Python does). -/
def splitOnChar (sep : Char) (l : List Char) : List (List Char) :=
  l.foldr
    (fun c acc =>
      match acc with
      | [] => [[]]
      | cur :: rest => if c = sep then [] :: (cur :: rest) else (c :: cur) :: rest)
    [[]]

/-- `safe_basename(key)`: `PurePosixPath(key.replace("\\", "/")).name`, i.e.
the last non-empty, non-`"."` path component (empty when there is none). -/
def safe_basename (key : String) : String :=
  let replaced := key.data.map (fun c => if c = '\\' then '/' else c)
  let comps := splitOnChar '/' replaced
  String.mk ((comps.filter (fun p => !p.isEmpty && p ≠ ['.'])).getLastD [])

/-- `split_stem_ext(name)`: split at the last `"."` when one occurs,
lowercasing the extension, else return the name with an empty extension. -/
def split_stem_ext (name : String) : String × String :=
  let cs := name.data
  if cs.contains '.' then
    let extRev := cs.reverse.takeWhile (fun c => c != '.')
    (String.mk (cs.take (cs.length - extRev.length - 1)),
     String.mk ('.' :: (extRev.reverse.map Char.toLower)))
  else (name, "")

/-- `sanitize_for_s3(name)`: keep printable ASCII (codes 32–126), replace
everything else with `'_'`, truncate to 200 characters, and fall back to
`"document"` when the result is empty. -/
def sanitize_for_s3 (name : String) : String :=
  let safe := String.mk
    ((name.data.map (fun c => if 32 ≤ c.toNat && c.toNat < 127 then c else '_')).take 200)
  if safe = "" then "document" else safe

/-- `marker_key_for_pdf(pdf_key)`. -/
def marker_key_for_pdf (pdf_key : String) : String :=
  MARKER_DIR ++ (sha1hex pdf_key ++ ".ok")

/-- The stem used by `process_one`: `split_stem_ext(safe_basename(pdf_key))[0]`. -/
def stem_of (pdf_key : String) : String := (split_stem_ext (safe_basename pdf_key)).1

/-- The folder guess of `process_one`:
`extract_folder_year_guess("/".join(pdf_key.split("/")[:2]) + "/")`. -/
def folder_guess_for (pdf_key : String) : Option Nat :=
  extract_folder_year_guess
    (String.mk (List.intercalate ['/'] ((splitOnChar '/' pdf_key.data).take 2) ++ ['/']))

/-- The year string `process_one` computes for a document. -/
def year_for (pdf_key : String) (current_year : Nat) : String :=
  extract_year_from_filename (stem_of pdf_key) (folder_guess_for pdf_key) current_year

/-- The output artifact key of `process_one`:
`f"{OUT_JSON_ROOT}{year}/{safe_stem}.json"`. -/
def json_key_for (pdf_key : String) (current_year : Nat) : String :=
  OUT_JSON_ROOT ++ (year_for pdf_key current_year ++ ("/" ++
    (sanitize_for_s3 (stem_of pdf_key) ++ ".json")))

/-! ## Append-only ledger (`append_row_to_csv_s3`)

The CSV object's content is modeled as its parsed row list; `csv.writer`
followed by `csv.reader` round-trips the rows, so serialization is the
identity here.  `existing = none` is the not-found (404) case. -/

/-- Pure content transformation of `append_row_to_csv_s3`: download (or start
empty), seed the header when there are no rows, append, re-upload. -/
def append_row_to_csv_s3 (row : List String) (existing : Option (List (List String)))
    (header : List String) : List (List String) :=
  let rows := existing.getD []
  let rows := if rows.isEmpty then [header] else rows
  rows ++ [row]

/-! ## Retrying remote invoker (`mistral_ocr_from_bytes`)

The attempt bodies are external network calls; attempt `n`'s outcome is given
by `res n` (`.ok` = parsed response, `.error` = raised exception).  The run
returns the overall outcome, the list of back-off sleeps performed (in
seconds, in order), and the list of attempt numbers executed. -/

/-- The `for attempt in range(1, MAX_OCR_RETRIES + 1)` loop, structurally
recursive on the number of attempts remaining after the current one.  With no
attempts remaining the current outcome is final (the last exception is
re-raised unwrapped, with no sleep). -/
def retryGo {E R : Type} (res : Nat → Except E R) (base attempt : Nat) :
    Nat → Except E R × List Nat × List Nat
  | 0 => (res attempt, [], [attempt])
  | remaining + 1 =>
    match res attempt with
    | .ok r => (.ok r, [], [attempt])
    | .error _ =>
      let p := retryGo res base (attempt + 1) remaining
      (p.1, attempt * base :: p.2.1, attempt :: p.2.2)

/-- `mistral_ocr_from_bytes`, starting at attempt 1 with
`MAX_OCR_RETRIES - 1` further attempts allowed. -/
def mistral_ocr_from_bytes {E R : Type} (res : Nat → Except E R) :
    Except E R × List Nat × List Nat :=
  retryGo res RETRY_BACKOFF 1 (MAX_OCR_RETRIES - 1)

/-! ## The per-document task `process_one`

External interactions are modeled explicitly.  S3 object contents are an
inductive type; the bucket is a flat map from keys to optional objects.  The
fallible steps of one document's processing (fetch, the overall retried OCR
invocation, artifact upload, marker write) have their outcomes supplied by a
`DocEnv`; a Python exception is a class name and message.  IMPORTANT: the
`marker_exists` guard at the top of `process_one` is commented out in the
source (a dead `#if marker_exists ... return ("skip", ...)` block), so the
embedding has no skip branch and never consults the marker store. -/

/-- A Python exception: class name and message. -/
structure PyErr where
  name : String
  msg : String
deriving DecidableEq, Repr

/-- `f"{e.__class__.__name__}: {e}"`. -/
def errString (e : PyErr) : String := e.name ++ (": " ++ e.msg)

/-- Contents of an S3 object, as far as the pipeline writes or reads them. -/
inductive Obj where
  /-- Opaque bytes (the source PDFs). -/
  | blob (content : String)
  /-- The uploaded payload `{"source": {"pdf_key": ...}, "ocr_output": ...}`. -/
  | jsonArtifact (pdf_key : String) (ocr : String)
  /-- The marker payload `{"pdf_key": ..., "json_key": ..., "ts": ...}`. -/
  | marker (pdf_key : String) (json_key : String) (ts : Nat)
  /-- A CSV ledger, as its parsed rows. -/
  | csv (rows : List (List String))
deriving DecidableEq, Repr

/-- The bucket: a flat key-to-object map. -/
def S3State : Type := String → Option Obj

/-- `marker_exists(bucket, key)`: the `head_object` probe, false exactly on
not-found (defined in the source, but its only call site is commented out). -/
def marker_exists (st : S3State) (key : String) : Bool := (st key).isSome

/-- Rows of the CSV object at `key`, or `none` when the object is absent
(the 404 branch of `append_row_to_csv_s3`). -/
def csvRowsAt (st : S3State) (key : String) : Option (List (List String)) :=
  match st key with
  | some (.csv rows) => some rows
  | _ => none

/-- Externally visible operations of a document task, in execution order. -/
inductive Eff where
  /-- `s3.get_object` of the source document (succeeded). -/
  | getObj (key : String)
  /-- The retried remote OCR invocation (succeeded). -/
  | ocrInvoke (display_name : String)
  /-- `upload_json_to_s3` of the output artifact. -/
  | putJson (key : String) (pdf_key : String) (ocr : String)
  /-- `write_marker`. -/
  | putMarker (key : String) (pdf_key : String) (json_key : String) (ts : Nat)
  /-- `append_row_to_csv_s3`. -/
  | csvAppend (key : String) (row : List String) (header : List String)
deriving DecidableEq, Repr

/-- `s3.put_object`: unconditional overwrite of one key. -/
def s3put (st : S3State) (k : String) (o : Obj) : S3State :=
  fun k' => if k' = k then some o else st k'

/-- Effect of one operation on the bucket (`put_object` overwrites; the CSV
append is the read-modify-write of `append_row_to_csv_s3`). -/
def applyEff (st : S3State) : Eff → S3State
  | .getObj _ => st
  | .ocrInvoke _ => st
  | .putJson k pk ocr => s3put st k (.jsonArtifact pk ocr)
  | .putMarker k pk jk ts => s3put st k (.marker pk jk ts)
  | .csvAppend k row header =>
    s3put st k (.csv (append_row_to_csv_s3 row (csvRowsAt st k) header))

/-- Run a list of operations against the bucket, in order. -/
def runEffs (st : S3State) (effs : List Eff) : S3State := effs.foldl applyEff st

/-- The straight-line success path of `process_one`: fetch, retried OCR,
artifact upload, marker write, success-ledger append — in source order. -/
def process_one_effs (pdf_key : String) (current_year ts : Nat) (ocr : String) : List Eff :=
  [ .getObj pdf_key,
    .ocrInvoke (stem_of pdf_key),
    .putJson (json_key_for pdf_key current_year) pdf_key ocr,
    .putMarker (marker_key_for_pdf pdf_key) pdf_key (json_key_for pdf_key current_year) ts,
    .csvAppend PROCESSED_CSV_KEY
      [pdf_key, year_for pdf_key current_year, json_key_for pdf_key current_year]
      ["pdf_key", "year", "json_key"] ]

/-- Outcomes of the fallible external steps of one document's processing.
`ocr` is the overall outcome of `mistral_ocr_from_bytes` (after its retries). -/
structure DocEnv where
  fetch : Except PyErr String
  ocr : Except PyErr String
  uploadJson : Except PyErr Unit
  putMarker : Except PyErr Unit

/-- The failure-ledger append performed by the `except` block of
`process_one`. -/
def failEff (pdf_key err : String) : Eff :=
  .csvAppend FAILED_CSV_KEY [pdf_key, err] ["pdf_key", "error_message"]

/-- `process_one(pdf_key)`: status (`"ok"` or `"fail"`; there is no live
`"skip"` path) together with the operations performed.  A raised step
contributes no write; the `except` block appends the class name and message
to the failure ledger and returns `"fail"`. -/
def process_one (env : DocEnv) (pdf_key : String) (current_year ts : Nat) :
    String × List Eff :=
  match env.fetch with
  | .error e => ("fail", [failEff pdf_key (errString e)])
  | .ok _pdf_bytes =>
    match env.ocr with
    | .error e => ("fail", [.getObj pdf_key, failEff pdf_key (errString e)])
    | .ok ocr =>
      match env.uploadJson with
      | .error e =>
        ("fail", [.getObj pdf_key, .ocrInvoke (stem_of pdf_key),
                  failEff pdf_key (errString e)])
      | .ok _ =>
        match env.putMarker with
        | .error e =>
          ("fail", [.getObj pdf_key, .ocrInvoke (stem_of pdf_key),
                    .putJson (json_key_for pdf_key current_year) pdf_key ocr,
                    failEff pdf_key (errString e)])
        | .ok _ => ("ok", process_one_effs pdf_key current_year ts ocr)

/-- The first exception raised among the fallible steps, in execution order. -/
def firstError (env : DocEnv) : Option PyErr :=
  match env.fetch with
  | .error e => some e
  | .ok _ =>
    match env.ocr with
    | .error e => some e
    | .ok _ =>
      match env.uploadJson with
      | .error e => some e
      | .ok _ =>
        match env.putMarker with
        | .error e => some e
        | .ok _ => none

/-! ## `main`: partition resolution, the processing loop, exit behavior

The S3 enumeration of PDFs under the matched folders is abstracted as the
list of documents handed to the loop.  `LSB_JOBINDEX` is `some n` exactly
when the environment variable is set and `isdigit()` holds (so `n : Nat`). -/

/-- How `main` terminates: `exitZero` is the informational early `return`
(process exit status 0), `exitNonZero` is `raise SystemExit(msg)` (exit
status 1), `run years` proceeds to the processing loop. -/
inductive MainOutcome where
  | exitZero (msg : String)
  | exitNonZero (msg : String)
  | run (years : List String)
deriving DecidableEq, Repr

/-- The final `if not years: raise SystemExit(...)` check. -/
def finalizeYears (years : List String) : MainOutcome :=
  if years.isEmpty then
    .exitNonZero "No years provided. Use --years ... or --year-list-file with --job-index/LSB_JOBINDEX."
  else .run years

/-- The LSF fallback block: `if not years and args.year_list_file`, read
`LSB_JOBINDEX`, and pick the 1-based token when in range. -/
def lsbStep (tokens : List String) (lsbIdx : Option Nat) (years : List String) :
    MainOutcome :=
  if years.isEmpty then
    match lsbIdx with
    | some n =>
      if 1 ≤ n && n - 1 < tokens.length then finalizeYears [tokens.getD (n - 1) ""]
      else finalizeYears years
    | none => finalizeYears years
  else finalizeYears years

/-- Partition resolution of `main`: `--years`, else `--year-list-file` with
`--job-index` (Python-truthy, so index 0 behaves like absent), else all the
file's tokens, else the `LSB_JOBINDEX` fallback.  A 1-based job index outside
the token list prints an informational message and returns (exit status 0). -/
def resolve_years (argsYears : List String) (fileTokens : Option (List String))
    (jobIndex : Option Int) (lsbIdx : Option Nat) : MainOutcome :=
  if argsYears.isEmpty then
    match fileTokens with
    | some tokens =>
      match jobIndex with
      | some j =>
        if j ≠ 0 then
          if 0 ≤ j - 1 && j - 1 < (tokens.length : Int) then
            finalizeYears [tokens.getD (j - 1).toNat ""]
          else .exitZero "job-index exceeds year-list size. Nothing to do."
        else lsbStep tokens lsbIdx tokens
      | none => lsbStep tokens lsbIdx tokens
    | none => finalizeYears argsYears
  else finalizeYears argsYears

/-- Statuses of the processing loop, one per discovered document. -/
def run_statuses (docs : List (String × DocEnv)) (current_year ts : Nat) : List String :=
  docs.map (fun d => (process_one d.2 d.1 current_year ts).1)

/-- The tally of `main`'s loop: `"ok"`, `"skip"`, else failed. -/
def tally (statuses : List String) : Nat × Nat × Nat :=
  statuses.foldl
    (fun acc s =>
      if s = "ok" then (acc.1 + 1, acc.2.1, acc.2.2)
      else if s = "skip" then (acc.1, acc.2.1 + 1, acc.2.2)
      else (acc.1, acc.2.1, acc.2.2 + 1))
    (0, 0, 0)

/-- `main`, end to end: exit code, then the ok/skipped/failed totals.  After
partition resolution succeeds, the loop runs every document to completion and
`main` falls off the end (exit code 0) whatever the per-document statuses. -/
def main_run (argsYears : List String) (fileTokens : Option (List String))
    (jobIndex : Option Int) (lsbIdx : Option Nat)
    (docs : List (String × DocEnv)) (current_year ts : Nat) :
    Nat × Nat × Nat × Nat :=
  match resolve_years argsYears fileTokens jobIndex lsbIdx with
  | .exitZero _ => (0, 0, 0, 0)
  | .exitNonZero _ => (1, 0, 0, 0)
  | .run _ =>
    let t := tally (run_statuses docs current_year ts)
    (0, t.1, t.2.1, t.2.2)

/-- Ledger contents after a sequence of appends to one ledger object that
starts out absent (each append is a full read-modify-write of
`append_row_to_csv_s3`, performed sequentially). -/
def ledgerAfter (header : List String) (rows : List (List String)) :
    Option (List (List String)) :=
  rows.foldl (fun st row => some (append_row_to_csv_s3 row st header)) none

/-- A document environment in which every external step succeeds. -/
def okEnv : DocEnv :=
  { fetch := .ok "pdf-bytes", ocr := .ok "ocr-json",
    uploadJson := .ok (), putMarker := .ok () }

/-! ## Helper lemmas: distinctness of the pipeline's key namespaces -/

theorem string_ne_of_get (u v : String) (i : Nat) (h : u.data[i]? ≠ v.data[i]?) :
    u ≠ v :=
  fun he => h (by rw [he])

theorem getElem_data_append (a s : String) (i : Nat) (c : Char)
    (h : a.data[i]? = some c) : (a ++ s).data[i]? = some c := by
  rw [String.data_append]
  rw [List.getElem?_append_left (List.getElem?_eq_some_iff.mp h).1]
  exact h

theorem append_lit_ne (a b s t : String) (i : Nat) (ca cb : Char)
    (ha : a.data[i]? = some ca) (hb : b.data[i]? = some cb) (hne : ca ≠ cb) :
    a ++ s ≠ b ++ t := by
  apply string_ne_of_get _ _ i
  rw [getElem_data_append a s i ca ha, getElem_data_append b t i cb hb]
  simp [hne]

theorem json_key_ne_marker_key (k k' : String) (cy : Nat) :
    json_key_for k cy ≠ marker_key_for_pdf k' := by
  unfold json_key_for marker_key_for_pdf
  exact append_lit_ne _ _ _ _ 0 'C' 'P' (by decide) (by decide) (by decide)

theorem json_key_ne_processed (k : String) (cy : Nat) :
    json_key_for k cy ≠ PROCESSED_CSV_KEY := by
  unfold json_key_for
  apply string_ne_of_get _ _ 0
  rw [getElem_data_append OUT_JSON_ROOT _ 0 'C' (by decide)]
  decide

theorem json_key_ne_failed (k : String) (cy : Nat) :
    json_key_for k cy ≠ FAILED_CSV_KEY := by
  unfold json_key_for
  apply string_ne_of_get _ _ 0
  rw [getElem_data_append OUT_JSON_ROOT _ 0 'C' (by decide)]
  decide

theorem marker_key_ne_processed (k : String) :
    marker_key_for_pdf k ≠ PROCESSED_CSV_KEY := by
  unfold marker_key_for_pdf
  apply string_ne_of_get _ _ 34
  rw [getElem_data_append MARKER_DIR _ 34 'm' (by decide)]
  decide

theorem marker_key_ne_failed (k : String) :
    marker_key_for_pdf k ≠ FAILED_CSV_KEY := by
  unfold marker_key_for_pdf
  apply string_ne_of_get _ _ 24
  rw [getElem_data_append MARKER_DIR _ 24 'p' (by decide)]
  decide

/-! ## C3: year-inference tier priority -/

/-- C3 (counterexample): on the stem `"1999_2001_report"` the year-inference
function does not return `"2001"`: Python's `\b` treats `_` as a word
character, so neither bare four-digit token is word-bounded and tier 3 finds
nothing; with no folder fallback the result is `"unknown"`. -/
theorem c3_counterexample :
    extract_year_from_filename "1999_2001_report" none 2025 ≠ "2001" ∧
    extract_year_from_filename "1999_2001_report" none 2025 = "unknown" := by
  constructor <;> decide

/-- C3 (amended): the tiers apply in strict priority with max-of-matches
within a tier: `"Acme_2019-07-31_v2020"` yields `"2019"` (the full-ISO tier
wins over the bare token 2020); `"1999_2001_report"` yields `"unknown"`
because underscore is a word character, so the bare tokens 1999 and 2001 are
not word-bounded and tier 3 is empty; with genuine word boundaries, as in
`"1999 2001 report"`, tier 3 returns the maximum `"2001"`. -/
theorem c3_year_tier_examples (cy : Nat) (h : 2018 ≤ cy) :
    extract_year_from_filename "Acme_2019-07-31_v2020" none cy = "2019" ∧
    extract_year_from_filename "1999_2001_report" none cy = "unknown" ∧
    extract_year_from_filename "1999 2001 report" none cy = "2001" := by
  refine ⟨?_, rfl, ?_⟩
  · show toString (clampYear 2019 (cy + 1)) = "2019"
    unfold clampYear
    rw [min_eq_left (by omega), max_eq_left (by omega)]
    rfl
  · show toString (clampYear (maxOfList 1999 [2001]) (cy + 1)) = "2001"
    unfold clampYear maxOfList
    rw [show List.foldl max 1999 [2001] = 2001 from rfl,
        min_eq_left (by omega), max_eq_left (by omega)]
    rfl

/-- C3 (amended, witness): the amended statement at current year 2025. -/
theorem c3_year_tier_examples_witness :
    extract_year_from_filename "Acme_2019-07-31_v2020" none 2025 = "2019" :=
  (c3_year_tier_examples 2025 (by decide)).1

/-! ## C4: year clamping -/

/-- C4 (counterexample): a tier-3 match `2099` that exceeds
`current_year + 1` (here current year 2025) is not treated as absent — it is
clamped and returned as `"2026"` instead of falling through to `"unknown"`. -/
theorem c4_counterexample :
    extract_year_from_filename "2099" none 2025 = "2026" ∧
    extract_year_from_filename "2099" none 2025 ≠ "unknown" := by
  constructor <;> decide

/-- Shape of every result of `extract_year_from_filename`: `"unknown"`, a
clamped tier match, or an in-range folder fallback. -/
theorem extract_year_cases (stem : String) (fb : Option Nat) (cy : Nat) :
    extract_year_from_filename stem fb cy = "unknown" ∨
    (∃ v, extract_year_from_filename stem fb cy = toString (clampYear v (cy + 1))) ∨
    (∃ fy, fb = some fy ∧ 1900 ≤ fy ∧ fy ≤ cy + 1 ∧
      extract_year_from_filename stem fb cy = toString fy) := by
  unfold extract_year_from_filename
  rcases h1 : findFullISO stem.data with _ | ⟨y, ys⟩
  case cons => exact Or.inr (Or.inl ⟨maxOfList y ys, by simp [h1]⟩)
  rcases h2 : findPartialISO stem.data with _ | ⟨y, ys⟩
  case cons => exact Or.inr (Or.inl ⟨maxOfList y ys, by simp [h1, h2]⟩)
  rcases h3 : findPlainYears none stem.data with _ | ⟨y, ys⟩
  case cons => exact Or.inr (Or.inl ⟨maxOfList y ys, by simp [h1, h2, h3]⟩)
  rcases fb with _ | fy
  · exact Or.inl (by simp [h1, h2, h3])
  by_cases hc : (1900 ≤ fy ∧ fy ≤ cy + 1)
  · exact Or.inr (Or.inr ⟨fy, rfl, hc.1, hc.2,
      by simp [h1, h2, h3, hc.1, hc.2]⟩)
  · refine Or.inl ?_
    simp only [h1, h2, h3]
    rw [if_neg (by simpa using hc)]

/-- C4 (amended): a matched year outside `[1900, current_year + 1]` is
clamped into that range and returned from its tier — it does not fall
through.  Consequently every numeric year the function returns lies in
`[1900, current_year + 1]`, and a stem whose only match is the bare token
`2099` yields `str(current_year + 1)` rather than a fallback or
`"unknown"`. -/
theorem c4_year_clamping (cy : Nat) (hcy : 1899 ≤ cy) :
    (∀ stem fb, extract_year_from_filename stem fb cy ≠ "unknown" →
      ∃ y, 1900 ≤ y ∧ y ≤ cy + 1 ∧
        extract_year_from_filename stem fb cy = toString y) ∧
    (cy ≤ 2098 → extract_year_from_filename "2099" none cy = toString (cy + 1)) := by
  constructor
  · intro stem fb hne
    rcases extract_year_cases stem fb cy with h | ⟨v, hv⟩ | ⟨fy, _, hlo, hhi, hfy⟩
    · exact absurd h hne
    · refine ⟨clampYear v (cy + 1), ?_, ?_, hv⟩
      · exact le_max_right _ _
      · exact max_le (le_trans (min_le_right _ _) (le_refl _)) (by omega)
    · exact ⟨fy, hlo, hhi, hfy⟩
  · intro hle
    show toString (clampYear 2099 (cy + 1)) = toString (cy + 1)
    unfold clampYear
    rw [min_eq_right (by omega), max_eq_left (by omega)]

/-- C4 (amended, witness): at current year 2025, the stem `"2099"` yields
`"2026"`. -/
theorem c4_year_clamping_witness :
    extract_year_from_filename "2099" none 2025 = toString 2026 :=
  (c4_year_clamping 2025 (by decide)).2 (by decide)

/-! ## C5: retry policy of the remote invoker -/

/-- C5: the retrying invoker makes at most 3 attempts; a successful attempt
returns immediately with no further attempts; after the n-th failed attempt
(n = 1, 2) it sleeps exactly n × 5 seconds; when all 3 attempts fail it
re-raises exactly the final attempt's exception, with no sleep after the
final attempt. -/
theorem c5_retry_policy {E R : Type} (res : Nat → Except E R) :
    (mistral_ocr_from_bytes res).2.2.length ≤ 3 ∧
    (∀ r, res 1 = .ok r →
      mistral_ocr_from_bytes res = (.ok r, [], [1])) ∧
    (∀ e1 r, res 1 = .error e1 → res 2 = .ok r →
      mistral_ocr_from_bytes res = (.ok r, [1 * RETRY_BACKOFF], [1, 2])) ∧
    (∀ e1 e2 r, res 1 = .error e1 → res 2 = .error e2 → res 3 = .ok r →
      mistral_ocr_from_bytes res =
        (.ok r, [1 * RETRY_BACKOFF, 2 * RETRY_BACKOFF], [1, 2, 3])) ∧
    (∀ e1 e2 e3, res 1 = .error e1 → res 2 = .error e2 → res 3 = .error e3 →
      mistral_ocr_from_bytes res =
        (.error e3, [1 * RETRY_BACKOFF, 2 * RETRY_BACKOFF], [1, 2, 3])) := by
  have hdef : mistral_ocr_from_bytes res = retryGo res 5 1 2 := rfl
  refine ⟨?_, ?_, ?_, ?_, ?_⟩
  · rcases h1 : res 1 with e1 | r1 <;> rcases h2 : res 2 with e2 | r2 <;>
      rcases h3 : res 3 with e3 | r3 <;>
      simp [hdef, retryGo, h1, h2, h3]
  · intro r h1; simp [hdef, retryGo, h1]
  · intro e1 r h1 h2; simp [hdef, retryGo, h1, h2, RETRY_BACKOFF]
  · intro e1 e2 r h1 h2 h3; simp [hdef, retryGo, h1, h2, h3, RETRY_BACKOFF]
  · intro e1 e2 e3 h1 h2 h3; simp [hdef, retryGo, h1, h2, h3, RETRY_BACKOFF]

/-- C5 (witness): an invoker failing on all three attempts sleeps 5 s then
10 s and re-raises the last exception. -/
theorem c5_retry_policy_witness :
    mistral_ocr_from_bytes (fun n => (Except.error ("boom" ++ toString n) : Except String Nat)) =
      (.error "boom3", [1 * RETRY_BACKOFF, 2 * RETRY_BACKOFF], [1, 2, 3]) :=
  (c5_retry_policy _).2.2.2.2 "boom1" "boom2" "boom3" rfl rfl rfl

/-! ## C6: lost update in the read-modify-write ledger -/

/-- C6: when two appends to the same ledger object both read the same prior
rows `s0` before either writes, each computes its content from that shared
snapshot; the second `put_object` overwrites the first, so the final ledger
object holds the second writer's row and the first writer's row is lost. -/
theorem c6_ledger_lost_update (s0 : Option (List (List String)))
    (header r1 r2 : List String)
    (h1 : r1 ∉ s0.getD []) (h2 : r1 ≠ header) (h3 : r1 ≠ r2) :
    r1 ∈ append_row_to_csv_s3 r1 s0 header ∧
    r2 ∈ append_row_to_csv_s3 r2 s0 header ∧
    r1 ∉ append_row_to_csv_s3 r2 s0 header ∧
    (∀ (st : S3State) (ck : String),
      s3put (s3put st ck (.csv (append_row_to_csv_s3 r1 s0 header)))
          ck (.csv (append_row_to_csv_s3 r2 s0 header)) ck =
        some (.csv (append_row_to_csv_s3 r2 s0 header))) := by
  refine ⟨?_, ?_, ?_, fun st ck => by simp [s3put]⟩
  · simp [append_row_to_csv_s3]
  · simp [append_row_to_csv_s3]
  · unfold append_row_to_csv_s3
    simp only [List.mem_append, List.mem_singleton]
    rintro (hmem | hmem)
    · split at hmem
      · simp at hmem; exact h2 hmem
      · exact h1 hmem
    · exact h3 hmem

/-- C6 (witness): the race at a concrete ledger: starting from an absent
object, the surviving content is the second writer's, and the first writer's
row is gone. -/
theorem c6_ledger_lost_update_witness :
    (["a.pdf", "2001", "x.json"] : List String) ∉
      append_row_to_csv_s3 ["b.pdf", "2001", "y.json"] none
        ["pdf_key", "year", "json_key"] :=
  (c6_ledger_lost_update none ["pdf_key", "year", "json_key"]
    ["a.pdf", "2001", "x.json"] ["b.pdf", "2001", "y.json"]
    (by decide) (by decide) (by decide)).2.2.1

/-! ## C7: ledgers are schema-first -/

/-- Invariant carried through a sequence of ledger appends. -/
theorem ledger_invariant (header : List String) :
    ∀ (entries : List (List String)) (st : Option (List (List String))),
      (∀ r ∈ entries, r.length = header.length) →
      (∀ rows, st = some rows →
        rows ≠ [] ∧ rows.head? = some header ∧
        ∀ r ∈ rows, r.length = header.length) →
      ∀ out, entries.foldl
          (fun st row => some (append_row_to_csv_s3 row st header)) st = some out →
        out ≠ [] ∧ out.head? = some header ∧
        ∀ r ∈ out, r.length = header.length := by
  intro entries
  induction entries with
  | nil => intro st _ hst out hout; exact hst out hout
  | cons r rest ih =>
    intro st hlen hst out hout
    refine ih (some (append_row_to_csv_s3 r st header))
      (fun r' hr' => hlen r' (List.mem_cons_of_mem _ hr')) ?_ out hout
    intro rows hrows
    injection hrows with hrows
    subst hrows
    unfold append_row_to_csv_s3
    rcases st with _ | prevRows
    · refine ⟨by simp, by simp, ?_⟩
      intro r' hr'
      simp only [Option.getD_none, List.isEmpty_nil, if_pos] at hr'
      rcases List.mem_append.mp hr' with h | h
      · rw [List.mem_singleton.mp h]
      · rw [List.mem_singleton.mp h]
        exact hlen r (List.mem_cons_self _ _)
    · obtain ⟨hne, hhead, hall⟩ := hst prevRows rfl
      have hemp : prevRows.isEmpty = false := by
        cases prevRows
        · exact absurd rfl hne
        · rfl
      refine ⟨by simp [hemp], ?_, ?_⟩
      · simp [List.head?_append, hhead, hemp]
      · intro r' hr'
        simp only [Option.getD_some, hemp, Bool.false_eq_true, if_neg] at hr'
        rcases List.mem_append.mp hr' with h | h
        · exact hall r' h
        · rw [List.mem_singleton.mp h]
          exact hlen r (List.mem_cons_self _ _)

/-- C7: a ledger built from an absent object by any sequence of appends whose
rows match the header's width is schema-first: its first row is the header
and every row has the header's column count.  In particular this holds for
the success ledger (3-column rows `[pdf_key, year, json_key]`) and failure
ledger (2-column rows `[pdf_key, error]`) appends issued by `process_one`. -/
theorem c7_ledger_schema (header : List String) (entries : List (List String))
    (hlen : ∀ r ∈ entries, r.length = header.length) :
    (∀ out, ledgerAfter header entries = some out →
      out.head? = some header ∧ ∀ r ∈ out, r.length = header.length) ∧
    (∀ (items : List (String × String × String)) out,
      ledgerAfter ["pdf_key", "year", "json_key"]
          (items.map (fun t => [t.1, t.2.1, t.2.2])) = some out →
      out.head? = some ["pdf_key", "year", "json_key"] ∧
        ∀ r ∈ out, r.length = 3) ∧
    (∀ (items : List (String × String)) out,
      ledgerAfter ["pdf_key", "error_message"]
          (items.map (fun t => [t.1, t.2])) = some out →
      out.head? = some ["pdf_key", "error_message"] ∧ ∀ r ∈ out, r.length = 2) := by
  refine ⟨?_, ?_, ?_⟩
  · intro out hout
    have := ledger_invariant header entries none hlen (by intro rows h; cases h) out hout
    exact ⟨this.2.1, this.2.2⟩
  · intro items out hout
    have := ledger_invariant ["pdf_key", "year", "json_key"] _ none
      (by intro r hr; simp at hr; obtain ⟨a, b, c, _, hr⟩ := hr; rw [← hr]; rfl)
      (by intro rows h; cases h) out hout
    exact ⟨this.2.1, this.2.2⟩
  · intro items out hout
    have := ledger_invariant ["pdf_key", "error_message"] _ none
      (by intro r hr; simp at hr; obtain ⟨a, b, _, hr⟩ := hr; rw [← hr]; rfl)
      (by intro rows h; cases h) out hout
    exact ⟨this.2.1, this.2.2⟩

/-- C7 (witness): two concrete appends to the success ledger. -/
theorem c7_ledger_schema_witness :
    ([["pdf_key", "year", "json_key"], ["a.pdf", "2001", "x.json"]]
        : List (List String)).head? = some ["pdf_key", "year", "json_key"] ∧
    ∀ r ∈ ([["pdf_key", "year", "json_key"], ["a.pdf", "2001", "x.json"]]
        : List (List String)), r.length = ["pdf_key", "year", "json_key"].length :=
  (c7_ledger_schema ["pdf_key", "year", "json_key"] [["a.pdf", "2001", "x.json"]]
    (by decide)).1 _ rfl

/-! ## C9: exit behavior when no partitions resolve -/

/-- C9 (counterexample): with an empty `--years`, a one-token partition-list
file and 1-based job index 2, the program does not exit non-zero: it prints
an informational message and returns from `main`, so the process exit status
is 0. -/
theorem c9_counterexample :
    resolve_years [] (some ["2001"]) (some 2) none =
      .exitZero "job-index exceeds year-list size. Nothing to do." ∧
    ∀ msg, resolve_years [] (some ["2001"]) (some 2) none ≠ .exitNonZero msg := by
  constructor
  · rfl
  · intro msg h
    cases h

/-- Helper: `finalizeYears` never runs an empty list. -/
theorem finalize_run_ne (years ys : List String) :
    finalizeYears years = .run ys → ys ≠ [] := by
  intro h
  unfold finalizeYears at h
  split at h
  · cases h
  · injection h with h
    subst h
    intro hnil
    subst hnil
    simp_all

/-- Helper: `finalizeYears` never produces the zero-status early return. -/
theorem finalize_ne_exitZero (years : List String) (msg : String) :
    finalizeYears years ≠ .exitZero msg := by
  intro h
  unfold finalizeYears at h
  split at h
  · cases h
  · cases h

/-- Helper: the LSF fallback never runs an empty list. -/
theorem lsb_run_ne (tokens : List String) (lsbIdx : Option Nat) (years ys : List String) :
    lsbStep tokens lsbIdx years = .run ys → ys ≠ [] := by
  intro h
  unfold lsbStep at h
  split at h
  · rcases lsbIdx with _ | n
    · exact finalize_run_ne _ _ h
    · dsimp only at h
      split at h
      · exact finalize_run_ne _ _ h
      · exact finalize_run_ne _ _ h
  · exact finalize_run_ne _ _ h

/-- Helper: the LSF fallback never produces the zero-status early return. -/
theorem lsb_ne_exitZero (tokens : List String) (lsbIdx : Option Nat) (years : List String)
    (msg : String) : lsbStep tokens lsbIdx years ≠ .exitZero msg := by
  intro h
  unfold lsbStep at h
  split at h
  · rcases lsbIdx with _ | n
    · exact finalize_ne_exitZero _ _ h
    · dsimp only at h
      split at h
      · exact finalize_ne_exitZero _ _ h
      · exact finalize_ne_exitZero _ _ h
  · exact finalize_ne_exitZero _ _ h

/-- C9 (amended): the processing loop only ever starts on a non-empty
partition list, and the zero-status early return happens exactly when a
partition-list file and a truthy (non-zero) job index are given and the
index falls outside the token list; every other input that resolves to no
partitions raises `SystemExit` with a message (non-zero exit status). -/
theorem c9_exit_behavior (argsYears : List String) (fileTokens : Option (List String))
    (jobIndex : Option Int) (lsbIdx : Option Nat) :
    (∀ ys, resolve_years argsYears fileTokens jobIndex lsbIdx = .run ys → ys ≠ []) ∧
    (∀ msg, resolve_years argsYears fileTokens jobIndex lsbIdx = .exitZero msg →
      argsYears = [] ∧ ∃ tokens j, fileTokens = some tokens ∧ jobIndex = some j ∧
        j ≠ 0 ∧ ¬(0 ≤ j - 1 ∧ j - 1 < (tokens.length : Int))) ∧
    (argsYears = [] → fileTokens = none →
      resolve_years argsYears fileTokens jobIndex lsbIdx =
        .exitNonZero "No years provided. Use --years ... or --year-list-file with --job-index/LSB_JOBINDEX.") := by
  refine ⟨?_, ?_, ?_⟩
  · intro ys hys
    unfold resolve_years at hys
    by_cases ha : argsYears.isEmpty = true
    · rw [if_pos ha] at hys
      rcases fileTokens with _ | tokens
      · exact finalize_run_ne _ _ hys
      · dsimp only at hys
        rcases jobIndex with _ | j
        · exact lsb_run_ne _ _ _ _ hys
        · dsimp only at hys
          by_cases hj : j = 0
          · rw [if_neg (fun hcon => hcon hj)] at hys
            exact lsb_run_ne _ _ _ _ hys
          · rw [if_pos hj] at hys
            split at hys
            · exact finalize_run_ne _ _ hys
            · cases hys
    · rw [if_neg ha] at hys
      exact finalize_run_ne _ _ hys
  · intro msg hmsg
    unfold resolve_years at hmsg
    by_cases ha : argsYears.isEmpty = true
    · rw [if_pos ha] at hmsg
      rcases fileTokens with _ | tokens
      · exact absurd hmsg (finalize_ne_exitZero _ _)
      · dsimp only at hmsg
        rcases jobIndex with _ | j
        · exact absurd hmsg (lsb_ne_exitZero _ _ _ _)
        · dsimp only at hmsg
          by_cases hj : j = 0
          · rw [if_neg (fun hcon => hcon hj)] at hmsg
            exact absurd hmsg (lsb_ne_exitZero _ _ _ _)
          · rw [if_pos hj] at hmsg
            by_cases hr : (0 ≤ j - 1 ∧ j - 1 < (tokens.length : Int))
            · rw [if_pos (by simp [hr.1, hr.2])] at hmsg
              exact absurd hmsg (finalize_ne_exitZero _ _)
            · exact ⟨List.isEmpty_iff.mp ha, tokens, j, rfl, rfl, hj, hr⟩
    · rw [if_neg ha] at hmsg
      exact absurd hmsg (finalize_ne_exitZero _ _)
  · intro ha hf
    subst ha hf
    rfl

/-- C9 (amended, witness): a valid job index runs exactly its token, and
empty inputs exit non-zero. -/
theorem c9_exit_behavior_witness :
    (["2001"] : List String) ≠ [] ∧
    resolve_years [] none none none =
      .exitNonZero "No years provided. Use --years ... or --year-list-file with --job-index/LSB_JOBINDEX." :=
  ⟨(c9_exit_behavior [] (some ["2001", "2002"]) (some 1) none).1 ["2001"] rfl,
   (c9_exit_behavior [] none none none).2.2 rfl rfl⟩

/-! ## C10: output keys collide across distinct source documents -/

/-- C10: the output artifact key depends only on the inferred year and the
sanitized stem (always a non-empty string of at most 200 printable-ASCII
characters), not on the full source key: the distinct keys
`Unziped_Documents/2001/a/report.pdf` and `Unziped_Documents/2001/b/report.pdf`
map to the same output key, and processing both leaves only the later
document's artifact at that key — the later upload silently overwrites the
earlier one. -/
theorem c10_output_key_collision :
    ("Unziped_Documents/2001/a/report.pdf" : String) ≠
      "Unziped_Documents/2001/b/report.pdf" ∧
    json_key_for "Unziped_Documents/2001/a/report.pdf" 2025 =
      json_key_for "Unziped_Documents/2001/b/report.pdf" 2025 ∧
    (∀ name, sanitize_for_s3 name ≠ "" ∧ (sanitize_for_s3 name).length ≤ 200 ∧
      ∀ c ∈ (sanitize_for_s3 name).data, 32 ≤ c.toNat ∧ c.toNat < 127) ∧
    (∀ (st : S3State) (ts1 ts2 : Nat) (o1 o2 : String),
      runEffs st
          (process_one_effs "Unziped_Documents/2001/a/report.pdf" 2025 ts1 o1 ++
           process_one_effs "Unziped_Documents/2001/b/report.pdf" 2025 ts2 o2)
          (json_key_for "Unziped_Documents/2001/a/report.pdf" 2025) =
        some (.jsonArtifact "Unziped_Documents/2001/b/report.pdf" o2)) := by
  have hj : json_key_for "Unziped_Documents/2001/a/report.pdf" 2025 =
      json_key_for "Unziped_Documents/2001/b/report.pdf" 2025 := by decide
  refine ⟨by decide, hj, ?_, ?_⟩
  · intro name
    unfold sanitize_for_s3
    dsimp only
    split
    · exact ⟨by decide, by decide, by decide⟩
    · next hne =>
      refine ⟨hne, ?_, ?_⟩
      · exact le_trans (le_of_eq (String.length_mk _)) (List.length_take_le _ _)
      · intro c hc
        simp only [String.mk] at hc
        have hc' := List.take_subset _ _ hc
        obtain ⟨a, _, ha⟩ := List.mem_map.mp hc'
        by_cases hr : (32 ≤ a.toNat && a.toNat < 127) = true
        · rw [if_pos hr] at ha
          subst ha
          simpa using hr
        · rw [if_neg hr] at ha
          subst ha
          decide
  · intro st ts1 ts2 o1 o2
    rw [runEffs, List.foldl_append]
    show runEffs _ (process_one_effs "Unziped_Documents/2001/b/report.pdf" 2025 ts2 o2) _ =
      _
    rw [hj]
    have h1 : json_key_for "Unziped_Documents/2001/b/report.pdf" 2025 ≠
        PROCESSED_CSV_KEY := json_key_ne_processed _ 2025
    have h2 : json_key_for "Unziped_Documents/2001/b/report.pdf" 2025 ≠
        marker_key_for_pdf "Unziped_Documents/2001/b/report.pdf" :=
      json_key_ne_marker_key _ _ 2025
    simp only [process_one_effs, runEffs, List.foldl_cons, List.foldl_nil, applyEff,
      s3put, h1, h2, eq_self_iff_true, if_true, if_false]

/-! ## C1: the idempotency marker check is commented out -/

/-- C1 (code bug): `process_one` never returns `"skip"` for any document or
environment, and concretely: after a successful first run has written the
marker for `Unziped_Documents/2001/a/report.pdf`, a second run still returns
`"ok"` — it fetches the document again, invokes OCR again and re-uploads the
artifact, instead of observing the marker and skipping.  The `marker_exists`
guard in `process_one` is commented out in the source, so the marker store is
never consulted.  (The output key is the same expression in both runs, so it
is trivially identical.) -/
theorem c1_marker_check_dead :
    (∀ (env : DocEnv) (k : String) (cy ts : Nat),
      (process_one env k cy ts).1 ≠ "skip") ∧
    (marker_exists
        (runEffs (fun _ => none)
          (process_one okEnv "Unziped_Documents/2001/a/report.pdf" 2025 7).2)
        (marker_key_for_pdf "Unziped_Documents/2001/a/report.pdf") = true ∧
      (process_one okEnv "Unziped_Documents/2001/a/report.pdf" 2025 8).1 = "ok" ∧
      Eff.getObj "Unziped_Documents/2001/a/report.pdf" ∈
        (process_one okEnv "Unziped_Documents/2001/a/report.pdf" 2025 8).2 ∧
      Eff.ocrInvoke (stem_of "Unziped_Documents/2001/a/report.pdf") ∈
        (process_one okEnv "Unziped_Documents/2001/a/report.pdf" 2025 8).2 ∧
      Eff.putJson (json_key_for "Unziped_Documents/2001/a/report.pdf" 2025)
          "Unziped_Documents/2001/a/report.pdf" "ocr-json" ∈
        (process_one okEnv "Unziped_Documents/2001/a/report.pdf" 2025 8).2) := by
  constructor
  · intro env k cy ts
    rcases env with ⟨f, o, u, m⟩
    cases f <;> cases o <;> cases u <;> cases m <;> simp [process_one]
  · refine ⟨?_, by decide, by decide, by decide, by decide⟩
    show marker_exists
      (runEffs (fun _ => none)
        (process_one_effs "Unziped_Documents/2001/a/report.pdf" 2025 7 "ocr-json"))
      (marker_key_for_pdf "Unziped_Documents/2001/a/report.pdf") = true
    simp only [process_one_effs, runEffs, List.foldl_cons, List.foldl_nil, applyEff, s3put,
      marker_exists, marker_key_ne_processed _, eq_self_iff_true, if_true, if_false]
    simp

/-! ## C2: artifact upload strictly precedes marker write -/

/-- C2: starting from a state with no marker for the document, along every
prefix of `process_one`'s success path: while the marker write (step 4) has
not executed there is no marker for the document — in particular for a crash
injected right after the artifact upload (prefix length 3) — and whenever
the marker exists it records the output key and the output artifact is
present at that key.  A subsequent run fetches the document again (there is
no skip path), so a crash before the marker write leads to reprocessing. -/
theorem c2_marker_after_artifact (pdf_key ocr : String) (cy ts : Nat) (st : S3State)
    (hm : st (marker_key_for_pdf pdf_key) = none) (k : Nat) :
    (k ≤ 3 → runEffs st ((process_one_effs pdf_key cy ts ocr).take k)
        (marker_key_for_pdf pdf_key) = none) ∧
    (∀ o, runEffs st ((process_one_effs pdf_key cy ts ocr).take k)
          (marker_key_for_pdf pdf_key) = some o →
      o = .marker pdf_key (json_key_for pdf_key cy) ts ∧
        runEffs st ((process_one_effs pdf_key cy ts ocr).take k)
            (json_key_for pdf_key cy) =
          some (.jsonArtifact pdf_key ocr)) ∧
    (∀ cy' ts', Eff.getObj pdf_key ∈ (process_one okEnv pdf_key cy' ts').2) := by
  have hmj : marker_key_for_pdf pdf_key ≠ json_key_for pdf_key cy :=
    (json_key_ne_marker_key pdf_key pdf_key cy).symm
  have hjm : json_key_for pdf_key cy ≠ marker_key_for_pdf pdf_key :=
    json_key_ne_marker_key pdf_key pdf_key cy
  have hmp : marker_key_for_pdf pdf_key ≠ PROCESSED_CSV_KEY :=
    marker_key_ne_processed pdf_key
  have hjp : json_key_for pdf_key cy ≠ PROCESSED_CSV_KEY :=
    json_key_ne_processed pdf_key cy
  have hrepro : ∀ cy' ts', Eff.getObj pdf_key ∈ (process_one okEnv pdf_key cy' ts').2 := by
    intro cy' ts'
    simp [process_one, okEnv, process_one_effs]
  have hfull : ∀ n, (process_one_effs pdf_key cy ts ocr).take (n + 5) =
      process_one_effs pdf_key cy ts ocr := by
    intro n
    apply List.take_of_length_le
    simp [process_one_effs]
  rcases k with _ | _ | _ | _ | _ | n
  · refine ⟨fun _ => ?_, fun o ho => ?_, hrepro⟩
    · simpa only [List.take_zero, runEffs, List.foldl_nil] using hm
    · simp only [List.take_zero, runEffs, List.foldl_nil] at ho
      rw [hm] at ho
      cases ho
  · refine ⟨fun _ => ?_, fun o ho => ?_, hrepro⟩
    · simpa only [process_one_effs, List.take_succ_cons, List.take_zero, runEffs,
        List.foldl_cons, List.foldl_nil, applyEff] using hm
    · simp only [process_one_effs, List.take_succ_cons, List.take_zero, runEffs,
        List.foldl_cons, List.foldl_nil, applyEff] at ho
      rw [hm] at ho
      cases ho
  · refine ⟨fun _ => ?_, fun o ho => ?_, hrepro⟩
    · simpa only [process_one_effs, List.take_succ_cons, List.take_zero, runEffs,
        List.foldl_cons, List.foldl_nil, applyEff] using hm
    · simp only [process_one_effs, List.take_succ_cons, List.take_zero, runEffs,
        List.foldl_cons, List.foldl_nil, applyEff] at ho
      rw [hm] at ho
      cases ho
  · refine ⟨fun _ => ?_, fun o ho => ?_, hrepro⟩
    · simp only [process_one_effs, List.take_succ_cons, List.take_zero, runEffs,
        List.foldl_cons, List.foldl_nil, applyEff, s3put, hmj, if_false]
      exact hm
    · simp only [process_one_effs, List.take_succ_cons, List.take_zero, runEffs,
        List.foldl_cons, List.foldl_nil, applyEff, s3put, hmj, if_false] at ho
      rw [hm] at ho
      cases ho
  · refine ⟨fun hk => by omega, fun o ho => ?_, hrepro⟩
    simp only [process_one_effs, List.take_succ_cons, List.take_zero, runEffs,
      List.foldl_cons, List.foldl_nil, applyEff, s3put, hmj, hjm,
      eq_self_iff_true, if_true, if_false] at ho ⊢
    exact ⟨(Option.some_injective _ ho).symm, trivial⟩
  · refine ⟨fun hk => by omega, fun o ho => ?_, hrepro⟩
    rw [hfull n] at ho ⊢
    simp only [process_one_effs, runEffs, List.foldl_cons, List.foldl_nil,
      applyEff, s3put, hmj, hjm, hmp, hjp, eq_self_iff_true, if_true, if_false] at ho ⊢
    exact ⟨(Option.some_injective _ ho).symm, trivial⟩

/-- C2 (witness): from an empty bucket, the crash prefix of length 3 (right
after the artifact upload) leaves no marker. -/
theorem c2_marker_after_artifact_witness :
    runEffs (fun _ => none) ((process_one_effs "x.pdf" 2025 7 "o").take 3)
      (marker_key_for_pdf "x.pdf") = none :=
  (c2_marker_after_artifact "x.pdf" "o" 2025 7 (fun _ => none) rfl 3).1 (by decide)

/-! ## C8: per-document failures and the run summary -/

/-- Characterization of `main`'s tally fold: ok, skip and everything-else
counts. -/
theorem tally_spec (l : List String) :
    tally l = (l.countP (fun s => s == "ok"),
               l.countP (fun s => !(s == "ok") && s == "skip"),
               l.countP (fun s => !(s == "ok") && !(s == "skip"))) := by
  have aux : ∀ (l : List String) (a b c : Nat),
      l.foldl
        (fun acc s =>
          if s = "ok" then (acc.1 + 1, acc.2.1, acc.2.2)
          else if s = "skip" then (acc.1, acc.2.1 + 1, acc.2.2)
          else (acc.1, acc.2.1, acc.2.2 + 1))
        (a, b, c) =
      (a + l.countP (fun s => s == "ok"),
       b + l.countP (fun s => !(s == "ok") && s == "skip"),
       c + l.countP (fun s => !(s == "ok") && !(s == "skip"))) := by
    intro l
    induction l with
    | nil => intro a b c; simp
    | cons s rest ih =>
      intro a b c
      by_cases hok : s = "ok"
      · simp only [List.foldl_cons, if_pos hok, ih, List.countP_cons, hok]
        refine Prod.ext ?_ (Prod.ext ?_ ?_) <;> (simp; try omega)
      · by_cases hsk : s = "skip"
        · simp only [List.foldl_cons, if_neg hok, if_pos hsk, ih, List.countP_cons, hsk]
          have : ("skip" == "ok") = false := by decide
          refine Prod.ext ?_ (Prod.ext ?_ ?_) <;> (simp [this]; try omega)
        · simp only [List.foldl_cons, if_neg hok, if_neg hsk, ih, List.countP_cons]
          have h1 : (s == "ok") = false := by simpa using hok
          have h2 : (s == "skip") = false := by simpa using hsk
          refine Prod.ext ?_ (Prod.ext ?_ ?_) <;> (simp [h1, h2]; try omega)
  unfold tally
  rw [aux]
  simp

/-- Every `process_one` outcome is `"ok"` or `"fail"` (never `"skip"`). -/
theorem process_one_status (env : DocEnv) (k : String) (cy ts : Nat) :
    (process_one env k cy ts).1 = "ok" ∨ (process_one env k cy ts).1 = "fail" := by
  rcases env with ⟨f, o, u, m⟩
  cases f <;> cases o <;> cases u <;> cases m <;> simp [process_one]

/-- C8: when any step from fetching through marker writing raises, the task
ends in the failed state: the status is `"fail"`, the failure ledger receives
a row with the source key and the exception's class name and message, no
marker write occurs (the marker slot is untouched, so a future run — which
never skips — retries the document); and at run level every document gets a
status, the failed total counts exactly the `"fail"` statuses, and the
process exit code after a resolved run is 0 regardless of per-document
failures. -/
theorem c8_failure_path (env : DocEnv) (pdf_key : String) (cy ts : Nat) (e : PyErr)
    (st : S3State) (he : firstError env = some e) :
    (process_one env pdf_key cy ts).1 = "fail" ∧
    failEff pdf_key (errString e) ∈ (process_one env pdf_key cy ts).2 ∧
    (∀ mk pk jk ts', Eff.putMarker mk pk jk ts' ∉ (process_one env pdf_key cy ts).2) ∧
    runEffs st (process_one env pdf_key cy ts).2 (marker_key_for_pdf pdf_key) =
      st (marker_key_for_pdf pdf_key) ∧
    (∀ env' cy' ts', (process_one env' pdf_key cy' ts').1 ≠ "skip") ∧
    (∀ docs : List (String × DocEnv),
      (run_statuses docs cy ts).length = docs.length ∧
      (tally (run_statuses docs cy ts)).2.2 =
        ((run_statuses docs cy ts).filter (fun s => s == "fail")).length) ∧
    (∀ args ft ji li (docs : List (String × DocEnv)) ys,
      resolve_years args ft ji li = .run ys →
      (main_run args ft ji li docs cy ts).1 = 0) := by
  have hskip : ∀ env' cy' ts', (process_one env' pdf_key cy' ts').1 ≠ "skip" := by
    intro env' cy' ts'
    rcases process_one_status env' pdf_key cy' ts' with h | h <;> rw [h] <;> decide
  have hdocs : ∀ docs : List (String × DocEnv),
      (run_statuses docs cy ts).length = docs.length ∧
      (tally (run_statuses docs cy ts)).2.2 =
        ((run_statuses docs cy ts).filter (fun s => s == "fail")).length := by
    intro docs
    refine ⟨by simp [run_statuses], ?_⟩
    rw [tally_spec]
    show List.countP (fun s => !(s == "ok") && !(s == "skip")) (run_statuses docs cy ts) =
      ((run_statuses docs cy ts).filter (fun s => s == "fail")).length
    rw [List.countP_eq_length_filter]
    congr 1
    apply List.filter_congr
    intro s hs
    obtain ⟨d, _, hd⟩ := List.mem_map.mp hs
    rcases process_one_status d.2 d.1 cy ts with h | h <;> rw [← hd, h] <;> decide
  have hmain : ∀ args ft ji li (docs : List (String × DocEnv)) ys,
      resolve_years args ft ji li = .run ys →
      (main_run args ft ji li docs cy ts).1 = 0 := by
    intro args ft ji li docs ys hres
    simp [main_run, hres]
  have hmf : marker_key_for_pdf pdf_key ≠ FAILED_CSV_KEY := marker_key_ne_failed pdf_key
  have hmj : marker_key_for_pdf pdf_key ≠ json_key_for pdf_key cy :=
    (json_key_ne_marker_key pdf_key pdf_key cy).symm
  rcases env with ⟨f, o, u, m⟩
  rcases f with ef | bf
  · simp only [firstError] at he
    injection he with he
    subst he
    refine ⟨rfl, by simp [process_one], by simp [process_one, failEff], ?_, hskip, hdocs, hmain⟩
    simp only [process_one, runEffs, List.foldl_cons, List.foldl_nil, applyEff, failEff,
      s3put, hmf, if_false]
  · rcases o with eo | bo
    · simp only [firstError] at he
      injection he with he
      subst he
      refine ⟨rfl, by simp [process_one], by simp [process_one, failEff], ?_, hskip, hdocs,
        hmain⟩
      simp only [process_one, runEffs, List.foldl_cons, List.foldl_nil, applyEff, failEff,
        s3put, hmf, if_false]
    · rcases u with eu | bu
      · simp only [firstError] at he
        injection he with he
        subst he
        refine ⟨rfl, by simp [process_one], by simp [process_one, failEff], ?_, hskip,
          hdocs, hmain⟩
        simp only [process_one, runEffs, List.foldl_cons, List.foldl_nil, applyEff, failEff,
          s3put, hmf, if_false]
      · rcases m with em | bm
        · simp only [firstError] at he
          injection he with he
          subst he
          refine ⟨rfl, by simp [process_one], by simp [process_one, failEff], ?_, hskip,
            hdocs, hmain⟩
          simp only [process_one, runEffs, List.foldl_cons, List.foldl_nil, applyEff,
            failEff, s3put, hmf, hmj, if_false]
        · simp only [firstError] at he
          exact Option.noConfusion he

/-- C8 (witness): a fetch failure at a concrete document yields the failed
status. -/
theorem c8_failure_path_witness :
    (process_one ⟨.error ⟨"ClientError", "403"⟩, .ok "", .ok (), .ok ()⟩
      "Unziped_Documents/2001/c/doc.pdf" 2025 7).1 = "fail" :=
  (c8_failure_path ⟨.error ⟨"ClientError", "403"⟩, .ok "", .ok (), .ok ()⟩
    "Unziped_Documents/2001/c/doc.pdf" 2025 7 ⟨"ClientError", "403"⟩
    (fun _ => none) rfl).1

end FedData
